import Mathlib

/-!
Shallow embedding of the ZeroClaw `text_transform` skill
(`src/templates/python/text_transform/main.py`).

The script reads one JSON document from stdin, validates that it is an
object, dispatches on a lowercased `transform` name over the fixed
`TRANSFORMS` table, and emits a `{success, output, error}` JSON object.
We embed parsed JSON values as the inductive `JVal`, Python exceptions as
their stringified messages (`Except String`), and the two functions
`run`/`main` as `run` and `handle` below.  Character casing models the
ASCII fragment of Python's `str.upper`/`str.lower`/`str.title` (the spec
explicitly leaves non-ASCII parity out of the contract).
-/

namespace TextTransform

/-- A parsed JSON value, as `json.loads` would produce it: `null`, booleans,
numbers, strings, arrays, and objects (assoc lists with string keys). -/
inductive JVal where
  | null
  | bool (b : Bool)
  | num (n : Int)
  | str (s : String)
  | arr (elts : List JVal)
  | obj (entries : List (String × JVal))

/-- ASCII lowercase-to-uppercase table (the fragment of Python's case
mapping that the spec guarantees). -/
def asciiUpperMap : List (Char × Char) :=
  [('a', 'A'), ('b', 'B'), ('c', 'C'), ('d', 'D'), ('e', 'E'), ('f', 'F'),
   ('g', 'G'), ('h', 'H'), ('i', 'I'), ('j', 'J'), ('k', 'K'), ('l', 'L'),
   ('m', 'M'), ('n', 'N'), ('o', 'O'), ('p', 'P'), ('q', 'Q'), ('r', 'R'),
   ('s', 'S'), ('t', 'T'), ('u', 'U'), ('v', 'V'), ('w', 'W'), ('x', 'X'),
   ('y', 'Y'), ('z', 'Z')]

/-- ASCII uppercase-to-lowercase table. -/
def asciiLowerMap : List (Char × Char) :=
  [('A', 'a'), ('B', 'b'), ('C', 'c'), ('D', 'd'), ('E', 'e'), ('F', 'f'),
   ('G', 'g'), ('H', 'h'), ('I', 'i'), ('J', 'j'), ('K', 'k'), ('L', 'l'),
   ('M', 'm'), ('N', 'n'), ('O', 'o'), ('P', 'p'), ('Q', 'q'), ('R', 'r'),
   ('S', 's'), ('T', 't'), ('U', 'u'), ('V', 'v'), ('W', 'w'), ('X', 'x'),
   ('Y', 'y'), ('Z', 'z')]

/-- Uppercase one character (identity off `a`-`z`). -/
def upChar (c : Char) : Char := (asciiUpperMap.lookup c).getD c

/-- Lowercase one character (identity off `A`-`Z`). -/
def lowChar (c : Char) : Char := (asciiLowerMap.lookup c).getD c

/-- Whether a character is cased (an ASCII letter), the word-boundary test
used by `str.title`. -/
def casedChar (c : Char) : Bool :=
  (asciiUpperMap.lookup c).isSome || (asciiLowerMap.lookup c).isSome

/-- Python `str.upper` on a string (ASCII fragment). -/
def pyUpper (s : String) : String := ⟨s.data.map upChar⟩

/-- Python `str.lower` on a string (ASCII fragment). -/
def pyLower (s : String) : String := ⟨s.data.map lowChar⟩

/-- Python `s[::-1]` on a string: code-point reversal. -/
def pyReverse (s : String) : String := ⟨s.data.reverse⟩

/-- CPython `str.title` character walk: a cased character that follows a
cased character is lowercased, any other character is uppercased (uncased
characters map to themselves under both casings). -/
def titleChars : Bool → List Char → List Char
  | _, [] => []
  | prevCased, c :: cs =>
      (if prevCased then lowChar c else upChar c) :: titleChars (casedChar c) cs

/-- Python `str.title` on a string (ASCII fragment). -/
def pyTitle (s : String) : String := ⟨titleChars false s.data⟩

/-- The Python type name of a JSON value, as it appears in CPython error
messages (`json.loads` maps JSON numbers to `int`/`float`; we model the
integer case). -/
def typeName : JVal → String
  | .null => "NoneType"
  | .bool _ => "bool"
  | .num _ => "int"
  | .str _ => "str"
  | .arr _ => "list"
  | .obj _ => "dict"

/-- `v.lower()` on an arbitrary value: succeeds on strings, raises
`AttributeError` otherwise (stringified message). -/
def lowerMethod : JVal → Except String String
  | .str s => .ok (pyLower s)
  | v => .error ("\x27" ++ typeName v ++ "\x27 object has no attribute \x27lower\x27")

/-- The `TypeError` message raised by applying an unbound `str` method
(`str.upper`, `str.lower`, `str.title`) to a non-string. -/
def descriptorError (method : String) (v : JVal) : String :=
  "descriptor \x27" ++ method ++ "\x27 for \x27str\x27 objects doesn\x27t apply to a \x27"
    ++ typeName v ++ "\x27 object"

/-- `str.upper` as an unbound method applied to an arbitrary value. -/
def strUpperMethod : JVal → Except String JVal
  | .str s => .ok (.str (pyUpper s))
  | v => .error (descriptorError "upper" v)

/-- `str.lower` as an unbound method applied to an arbitrary value. -/
def strLowerMethod : JVal → Except String JVal
  | .str s => .ok (.str (pyLower s))
  | v => .error (descriptorError "lower" v)

/-- `str.title` as an unbound method applied to an arbitrary value. -/
def strTitleMethod : JVal → Except String JVal
  | .str s => .ok (.str (pyTitle s))
  | v => .error (descriptorError "title" v)

/-- `lambda s: s[::-1]` applied to an arbitrary value: reverses strings and
lists, raises `TypeError` otherwise. -/
def sliceReverse : JVal → Except String JVal
  | .str s => .ok (.str (pyReverse s))
  | .arr l => .ok (.arr l.reverse)
  | .obj _ => .error "unhashable type: \x27slice\x27"
  | v => .error ("\x27" ++ typeName v ++ "\x27 object is not subscriptable")

/-- The `TRANSFORMS` dict of `main.py`, in registration order. -/
def TRANSFORMS : List (String × (JVal → Except String JVal)) :=
  [("uppercase", strUpperMethod),
   ("lowercase", strLowerMethod),
   ("reverse", sliceReverse),
   ("title", strTitleMethod)]

/-- The registered transform names, in registration order. -/
def transformNames : List String := TRANSFORMS.map Prod.fst

/-- `", ".join(TRANSFORMS.keys())`. -/
def transformKeysJoined : String := String.intercalate ", " transformNames

/-- `d.get(k, default)`-style lookup in a parsed JSON object. -/
def dictGet (entries : List (String × JVal)) (k : String) : Option JVal :=
  entries.lookup k

/-- The result dict `{"success": _, "output": _, "error": _}` as `main.py`
builds it, with its three keys in source order. -/
def mkResult (success : Bool) (output : JVal) (error : JVal) : JVal :=
  .obj [("success", .bool success), ("output", output), ("error", error)]

/-- The function `run` of `main.py`: raises (`.error`, carrying the
stringified exception) on a non-dict argument, on `.lower()` applied to a
non-string `transform` value, and on a transform function failing on the
`text` value; otherwise returns the result dict. -/
def run (args : JVal) : Except String JVal :=
  match args with
  | .obj entries =>
      let text := (dictGet entries "text").getD (.str "")
      match lowerMethod ((dictGet entries "transform").getD (.str "")) with
      | .error e => .error e
      | .ok transform =>
          match TRANSFORMS.lookup transform with
          | none =>
              .ok (mkResult false (.str "")
                (.str ("unknown transform \x27" ++ transform ++ "\x27 — use: "
                  ++ transformKeysJoined)))
          | some f =>
              match f text with
              | .error e => .error e
              | .ok result => .ok (mkResult true result .null)
  | _ => .error "args must be a dict"

/-- The function `main` of `main.py`, from the outcome of `json.loads` on
stdin (`.error diag` is a parse failure with the parser's diagnostic) to
the emitted JSON object. -/
def handle (parsed : Except String JVal) : JVal :=
  match parsed with
  | .error diag => mkResult false (.str "") (.str ("invalid JSON: " ++ diag))
  | .ok args =>
      match run args with
      | .ok r => r
      | .error e => mkResult false (.str "") (.str e)

/-- The string-level content of the `TRANSFORMS` table: the pure transform
bound to each registered name (identity off the registry). -/
def pureTransform (name : String) (s : String) : String :=
  if name = "uppercase" then pyUpper s
  else if name = "lowercase" then pyLower s
  else if name = "reverse" then pyReverse s
  else if name = "title" then pyTitle s
  else s

/-- Field access in an emitted result object. -/
def getField (r : JVal) (k : String) : Option JVal :=
  match r with
  | .obj entries => dictGet entries k
  | _ => none

/-- Whether a JSON value is a string. -/
def jIsStr : JVal → Bool
  | .str _ => true
  | _ => false

/-- Whether a JSON value is an object. -/
def jIsObj : JVal → Bool
  | .obj _ => true
  | _ => false

example : pyUpper "hello world" = "HELLO WORLD" := rfl
example : pyTitle "a quick fox" = "A Quick Fox" := rfl
example : pyTitle "don\x27t" = "Don\x27T" := rfl
example : pyReverse "Hello" = "olleH" := rfl
example :
    handle (.ok (.obj [("text", .str "hi"), ("transform", .str "UPPERCASE")]))
      = mkResult true (.str "HI") .null := rfl
example :
    handle (.ok (.obj [("text", .str "x"), ("transform", .str "rot13")]))
      = mkResult false (.str "")
          (.str "unknown transform \x27rot13\x27 — use: uppercase, lowercase, reverse, title") := rfl
example :
    handle (.ok (.arr [.num 1])) = mkResult false (.str "") (.str "args must be a dict") := rfl
example :
    handle (.ok (.obj [("text", .arr [.num 1, .num 2, .num 3]), ("transform", .str "reverse")]))
      = mkResult true (.arr [.num 3, .num 2, .num 1]) .null := rfl

/-! ## Helper lemmas -/

/-- The uppercase table maps into characters outside its own domain. -/
lemma lookupUpper_image (c d : Char) (h : asciiUpperMap.lookup c = some d) :
    asciiUpperMap.lookup d = none := by
  simp only [asciiUpperMap, List.lookup] at h
  repeat' split at h
  all_goals first
    | (injection h with h2; subst h2; rfl)
    | exact Option.noConfusion h

/-- The lowercase table maps into characters outside its own domain. -/
lemma lookupLower_image (c d : Char) (h : asciiLowerMap.lookup c = some d) :
    asciiLowerMap.lookup d = none := by
  simp only [asciiLowerMap, List.lookup] at h
  repeat' split at h
  all_goals first
    | (injection h with h2; subst h2; rfl)
    | exact Option.noConfusion h

/-- Uppercasing one character is idempotent. -/
lemma upChar_idem (c : Char) : upChar (upChar c) = upChar c := by
  unfold upChar
  cases hl : asciiUpperMap.lookup c with
  | none => simp [hl]
  | some d => simp [hl, lookupUpper_image c d hl]

/-- Lowercasing one character is idempotent. -/
lemma lowChar_idem (c : Char) : lowChar (lowChar c) = lowChar c := by
  unfold lowChar
  cases hl : asciiLowerMap.lookup c with
  | none => simp [hl]
  | some d => simp [hl, lookupLower_image c d hl]

/-- A name outside the registry fails the `TRANSFORMS` lookup. -/
lemma lookup_transforms_none (n : String) (hn : n ∉ transformNames) :
    TRANSFORMS.lookup n = none := by
  simp [transformNames, TRANSFORMS] at hn
  obtain ⟨h1, h2, h3, h4⟩ := hn
  simp [TRANSFORMS, List.lookup, beq_eq_false_iff_ne.mpr h1, beq_eq_false_iff_ne.mpr h2,
    beq_eq_false_iff_ne.mpr h3, beq_eq_false_iff_ne.mpr h4]

/-! ## Claim theorems -/

/-- C1: for every transform name `t` whose lowercased form is registered and
every string `s`, handling `{text: s, transform: t}` yields
`{success: true, output: f_t(s), error: null}` with `f_t` the pure transform
bound to the lowercased name; the name is matched case-insensitively. -/
theorem handler_applies_registered_transform (t s : String)
    (h : pyLower t ∈ transformNames) :
    handle (.ok (.obj [("text", .str s), ("transform", .str t)])) =
      mkResult true (.str (pureTransform (pyLower t) s)) .null := by
  simp [transformNames, TRANSFORMS] at h
  have e2 : dictGet [("text", JVal.str s), ("transform", JVal.str t)] "transform"
      = some (.str t) := rfl
  rcases h with h | h | h | h <;>
    simp [handle, run, e2, lowerMethod, h, TRANSFORMS, List.lookup, dictGet,
      strUpperMethod, strLowerMethod, sliceReverse, strTitleMethod, pureTransform]

/-- C1 witness: `"UPPERCASE"` is matched case-insensitively and uppercases
`"hello world"`. -/
theorem handler_applies_registered_transform_witness :
    pyLower "UPPERCASE" ∈ transformNames
      ∧ handle (.ok (.obj [("text", .str "hello world"), ("transform", .str "UPPERCASE")]))
          = mkResult true (.str (pureTransform (pyLower "UPPERCASE") "hello world")) .null :=
  ⟨by decide, handler_applies_registered_transform "UPPERCASE" "hello world" (by decide)⟩

/-- C2 counterexample: the request `{text: [1,2,3], transform: "reverse"}`
is answered with `success: true` and a JSON array (not a string) in the
`output` field, because Python slicing reverses lists as well as strings. -/
theorem result_output_not_string_counterexample :
    handle (.ok (.obj [("text", .arr [.num 1, .num 2, .num 3]), ("transform", .str "reverse")]))
        = mkResult true (.arr [.num 3, .num 2, .num 1]) .null
      ∧ (getField (handle (.ok (.obj [("text", .arr [.num 1, .num 2, .num 3]),
          ("transform", .str "reverse")]))) "output").map jIsStr = some false :=
  ⟨rfl, rfl⟩

/-- C2 amended: for every input the emitted Result is a mapping with exactly
the entries `success` (boolean), `output`, and `error`; when `success` is
false the output is the empty string and the error is a string; when
`success` is true the error is null.  The `output` value is the transform's
result, a string except when a non-string `text` is passed to `reverse`. -/
theorem result_shape_invariant (p : Except String JVal) :
    ∃ (b : Bool) (out err : JVal),
      handle p = mkResult b out err
        ∧ (b = false → out = .str "" ∧ ∃ m : String, err = .str m)
        ∧ (b = true → err = .null) := by
  cases p with
  | error d =>
      exact ⟨false, .str "", .str ("invalid JSON: " ++ d), rfl,
        fun _ => ⟨rfl, _, rfl⟩, fun hb => Bool.noConfusion hb⟩
  | ok v =>
      cases v with
      | obj entries =>
          cases hlm : lowerMethod ((dictGet entries "transform").getD (.str "")) with
          | error e =>
              exact ⟨false, .str "", .str e, by simp [handle, run, hlm],
                fun _ => ⟨rfl, _, rfl⟩, fun hb => Bool.noConfusion hb⟩
          | ok tname =>
              cases hlk : TRANSFORMS.lookup tname with
              | none =>
                  exact ⟨false, .str "",
                    .str ("unknown transform \x27" ++ tname ++ "\x27 — use: "
                      ++ transformKeysJoined),
                    by simp [handle, run, hlm, hlk],
                    fun _ => ⟨rfl, _, rfl⟩, fun hb => Bool.noConfusion hb⟩
              | some f =>
                  cases hap : f ((dictGet entries "text").getD (.str "")) with
                  | error e =>
                      exact ⟨false, .str "", .str e,
                        by simp [handle, run, hlm, hlk, hap],
                        fun _ => ⟨rfl, _, rfl⟩, fun hb => Bool.noConfusion hb⟩
                  | ok r =>
                      exact ⟨true, r, .null,
                        by simp [handle, run, hlm, hlk, hap],
                        fun hb => Bool.noConfusion hb, fun _ => rfl⟩
      | null => exact ⟨false, .str "", .str "args must be a dict", rfl,
          fun _ => ⟨rfl, _, rfl⟩, fun hb => Bool.noConfusion hb⟩
      | bool b => exact ⟨false, .str "", .str "args must be a dict", rfl,
          fun _ => ⟨rfl, _, rfl⟩, fun hb => Bool.noConfusion hb⟩
      | num n => exact ⟨false, .str "", .str "args must be a dict", rfl,
          fun _ => ⟨rfl, _, rfl⟩, fun hb => Bool.noConfusion hb⟩
      | str s2 => exact ⟨false, .str "", .str "args must be a dict", rfl,
          fun _ => ⟨rfl, _, rfl⟩, fun hb => Bool.noConfusion hb⟩
      | arr l => exact ⟨false, .str "", .str "args must be a dict", rfl,
          fun _ => ⟨rfl, _, rfl⟩, fun hb => Bool.noConfusion hb⟩

/-- C3: every error `run` raises is caught at the top level and converted to
`{success: false, output: "", error: str(exc)}`; since `handle` is a total
function, every input yields a well-formed Result and the process exits
cleanly. -/
theorem run_errors_caught_at_top_level (v : JVal) (e : String)
    (h : run v = .error e) :
    handle (.ok v) = mkResult false (.str "") (.str e) := by
  simp [handle, h]

/-- C3 witness: the `TypeError` raised on the non-dict argument `0` is
caught and surfaced as a failure Result. -/
theorem run_errors_caught_at_top_level_witness :
    run (.num 0) = .error "args must be a dict"
      ∧ handle (.ok (.num 0)) = mkResult false (.str "") (.str "args must be a dict") :=
  ⟨rfl, run_errors_caught_at_top_level (.num 0) "args must be a dict" rfl⟩

/-- C4 counterexample: with `{text: 5, transform: "uppercase"}` the code does
not default `text` to the empty string; `5` is passed to `str.upper`, which
raises, and the catch-all yields a failure Result instead of
`{success: true, output: "", error: null}`. -/
theorem text_non_string_not_defaulted_counterexample :
    handle (.ok (.obj [("text", .num 5), ("transform", .str "uppercase")]))
        = mkResult false (.str "")
            (.str "descriptor \x27upper\x27 for \x27str\x27 objects doesn\x27t apply to a \x27int\x27 object")
      ∧ handle (.ok (.obj [("text", .num 5), ("transform", .str "uppercase")]))
        ≠ mkResult true (.str (pureTransform "uppercase" "")) .null := by
  refine ⟨rfl, fun hEq => ?_⟩
  have h1 : getField (handle (.ok (.obj [("text", .num 5), ("transform", .str "uppercase")])))
      "success" = some (.bool false) := rfl
  have h2 : getField (mkResult true (.str (pureTransform "uppercase" "")) .null) "success"
      = some (.bool true) := rfl
  rw [hEq, h2] at h1
  injection h1 with h3
  injection h3 with h4
  exact Bool.noConfusion h4

/-- C4 amended: the `text` value passed to the transform defaults to the
empty string exactly when the `text` key is absent; for every request whose
transform lowercases to a registered name and whose `text` entry is absent,
the result is `{success: true, output: f_t(""), error: null}`.  (A
non-string `text` value is passed to the transform unchanged.) -/
theorem text_absent_defaults_empty (entries : List (String × JVal)) (t : String)
    (habs : dictGet entries "text" = none)
    (htr : dictGet entries "transform" = some (.str t))
    (h : pyLower t ∈ transformNames) :
    handle (.ok (.obj entries)) =
      mkResult true (.str (pureTransform (pyLower t) "")) .null := by
  simp [transformNames, TRANSFORMS] at h
  rcases h with h | h | h | h <;>
    simp [handle, run, habs, htr, lowerMethod, h, TRANSFORMS, List.lookup,
      strUpperMethod, strLowerMethod, sliceReverse, strTitleMethod, pureTransform]

/-- C4 witness: `{transform: "Title"}` with no `text` key titles the empty
string. -/
theorem text_absent_defaults_empty_witness :
    dictGet [("transform", JVal.str "Title")] "text" = none
      ∧ dictGet [("transform", JVal.str "Title")] "transform" = some (.str "Title")
      ∧ pyLower "Title" ∈ transformNames
      ∧ handle (.ok (.obj [("transform", .str "Title")]))
          = mkResult true (.str (pureTransform (pyLower "Title") "")) .null :=
  ⟨rfl, rfl, by decide,
    text_absent_defaults_empty [("transform", JVal.str "Title")] "Title" rfl rfl (by decide)⟩

/-- C5: every raw input that fails to parse as JSON short-circuits to
`{success: false, output: "", error: "invalid JSON: <diagnostic>"}`, with no
further processing and no escaping exception. -/
theorem invalid_json_short_circuits (diag : String) :
    handle (.error diag) =
      mkResult false (.str "") (.str ("invalid JSON: " ++ diag)) := rfl

/-- C6: every successfully parsed JSON value that is not an object yields
exactly `{success: false, output: "", error: "args must be a dict"}`. -/
theorem non_dict_input_rejected (v : JVal) (h : jIsObj v = false) :
    handle (.ok v) = mkResult false (.str "") (.str "args must be a dict") := by
  cases v with
  | obj entries => simp [jIsObj] at h
  | null => rfl
  | bool b => rfl
  | num n => rfl
  | str s => rfl
  | arr l => rfl

/-- C6 witness: the top-level JSON array `[1,2,3]` is rejected with the
exact wording `args must be a dict`. -/
theorem non_dict_input_rejected_witness :
    jIsObj (.arr [.num 1, .num 2, .num 3]) = false
      ∧ handle (.ok (.arr [.num 1, .num 2, .num 3]))
          = mkResult false (.str "") (.str "args must be a dict") :=
  ⟨rfl, non_dict_input_rejected (.arr [.num 1, .num 2, .num 3]) rfl⟩

/-- C7: when the lowercased transform name is not registered (including the
omitted case, which lowercases the default empty string), the result is
`{success: false, output: "", error: "unknown transform \x27<name>\x27 — use:
uppercase, lowercase, reverse, title"}` with the registered names in
registration order. -/
theorem unknown_transform_error_message (entries : List (String × JVal)) (t : String)
    (h : dictGet entries "transform" = some (.str t) ∨
      (dictGet entries "transform" = none ∧ t = ""))
    (hn : pyLower t ∉ transformNames) :
    handle (.ok (.obj entries)) =
      mkResult false (.str "")
        (.str ("unknown transform \x27" ++ pyLower t
          ++ "\x27 — use: uppercase, lowercase, reverse, title")) := by
  have hlook := lookup_transforms_none _ hn
  rcases h with h | ⟨h, ht⟩
  · simp [handle, run, h, lowerMethod, hlook, mkResult, String.append_assoc]
    rfl
  · subst ht
    simp [handle, run, h, lowerMethod, hlook, mkResult, String.append_assoc]
    rfl

/-- C7 witness: the unregistered name `rot13` produces the enumerated error
message. -/
theorem unknown_transform_error_message_witness :
    (dictGet [("text", JVal.str "x"), ("transform", JVal.str "rot13")] "transform"
        = some (.str "rot13")
      ∨ (dictGet [("text", JVal.str "x"), ("transform", JVal.str "rot13")] "transform" = none
          ∧ "rot13" = ""))
      ∧ pyLower "rot13" ∉ transformNames
      ∧ handle (.ok (.obj [("text", .str "x"), ("transform", .str "rot13")]))
          = mkResult false (.str "")
              (.str ("unknown transform \x27" ++ pyLower "rot13"
                ++ "\x27 — use: uppercase, lowercase, reverse, title")) :=
  ⟨Or.inl rfl, by decide,
    unknown_transform_error_message [("text", JVal.str "x"), ("transform", JVal.str "rot13")]
      "rot13" (Or.inl rfl) (by decide)⟩

/-- C8: `reverse` is an involution and `uppercase`/`lowercase` are
idempotent, for every string. -/
theorem transform_algebraic_properties (s : String) :
    pyReverse (pyReverse s) = s
      ∧ pyUpper (pyUpper s) = pyUpper s
      ∧ pyLower (pyLower s) = pyLower s := by
  obtain ⟨l⟩ := s
  have hu : upChar ∘ upChar = upChar := funext upChar_idem
  have hl2 : lowChar ∘ lowChar = lowChar := funext lowChar_idem
  refine ⟨?_, ?_, ?_⟩
  · simp [pyReverse]
  · simp [pyUpper, List.map_map, hu]
  · simp [pyLower, List.map_map, hl2]

/-- C9: the handler's result depends only on the `text` and `transform`
entries of the request object; any two objects agreeing on the presence and
value of those two entries produce identical Results. -/
theorem result_depends_only_on_text_and_transform (e1 e2 : List (String × JVal))
    (htx : dictGet e1 "text" = dictGet e2 "text")
    (htr : dictGet e1 "transform" = dictGet e2 "transform") :
    handle (.ok (.obj e1)) = handle (.ok (.obj e2)) := by
  simp only [handle, run, htx, htr]

/-- C9 witness: an extra `extra` entry does not change the result. -/
theorem result_depends_only_on_text_and_transform_witness :
    dictGet [("text", JVal.str "hi"), ("transform", JVal.str "reverse")] "text"
        = dictGet [("text", JVal.str "hi"), ("transform", JVal.str "reverse"),
            ("extra", JVal.bool true)] "text"
      ∧ dictGet [("text", JVal.str "hi"), ("transform", JVal.str "reverse")] "transform"
          = dictGet [("text", JVal.str "hi"), ("transform", JVal.str "reverse"),
              ("extra", JVal.bool true)] "transform"
      ∧ handle (.ok (.obj [("text", .str "hi"), ("transform", .str "reverse")]))
          = handle (.ok (.obj [("text", .str "hi"), ("transform", .str "reverse"),
              ("extra", .bool true)])) :=
  ⟨rfl, rfl,
    result_depends_only_on_text_and_transform
      [("text", JVal.str "hi"), ("transform", JVal.str "reverse")]
      [("text", JVal.str "hi"), ("transform", JVal.str "reverse"), ("extra", JVal.bool true)]
      rfl rfl⟩

/-- C10: a non-string `transform` value is neither defaulted nor reported as
unknown: `.lower()` raises `AttributeError`, which the catch-all converts to
a failure Result carrying the stringified exception. -/
theorem non_string_transform_name_raises (entries : List (String × JVal)) (v : JVal)
    (hv : dictGet entries "transform" = some v) (hs : jIsStr v = false) :
    handle (.ok (.obj entries)) =
      mkResult false (.str "")
        (.str ("\x27" ++ typeName v ++ "\x27 object has no attribute \x27lower\x27")) := by
  cases v <;> simp [jIsStr] at hs <;>
    simp [handle, run, hv, lowerMethod, typeName]

/-- C10 witness: `{transform: 7}` yields the stringified `AttributeError`. -/
theorem non_string_transform_name_raises_witness :
    dictGet [("transform", JVal.num 7)] "transform" = some (.num 7)
      ∧ jIsStr (JVal.num 7) = false
      ∧ handle (.ok (.obj [("transform", .num 7)]))
          = mkResult false (.str "")
              (.str ("\x27" ++ typeName (.num 7) ++ "\x27 object has no attribute \x27lower\x27")) :=
  ⟨rfl, rfl, non_string_transform_name_raises [("transform", JVal.num 7)] (.num 7) rfl rfl⟩

end TextTransform
